import Mathlib

/-!
Verification of the passport-etsy OAuth1 strategy.

The development embeds the two source files of the repository:

* `lib/profile.js` — the profile parser `exports.parse`, embedded as `Etsy.parse`;
* `lib/strategy.js` — the `Strategy` constructor, `Strategy.prototype.authenticate`,
  and `Strategy.prototype.userProfile`, embedded as `Etsy.Strategy.init`,
  `Etsy.authenticate` and `Etsy.Strategy.userProfile`.

JavaScript runtime values are modelled by the inductive `Etsy.JsValue`.
Property access on `undefined`/`null` throws a `TypeError`; elsewhere a
missing property reads as `undefined`, exactly as in the JS semantics the
code runs under.  `JSON.parse`, which comes from the JS runtime and not
from the repository, is abstracted as a parameter
`jp : String → Except JsError JsValue`; theorems quantify over it.
The HTTP transport of the underlying OAuth1 client (an external
dependency) is abstracted by `FetchResult`: the argument the client
passes to the callback given to its `get` primitive.
-/

set_option autoImplicit false

namespace Etsy

/-- Model of a JavaScript runtime value, restricted to the constructors the
repository manipulates. -/
inductive JsValue where
  | undefined
  | null
  | bool (b : Bool)
  | num (n : Int)
  | str (s : String)
  | arr (elems : List JsValue)
  | obj (fields : List (String × JsValue))
deriving Repr

/-- Model of a JavaScript exception: a `TypeError` raised by property access
on `undefined`/`null`, or the error thrown by `JSON.parse` on malformed
input. -/
inductive JsError where
  | typeErr (msg : String)
  | parseErr (msg : String)
deriving Repr, DecidableEq

/-- JavaScript truthiness of a value. -/
def jsTruthy : JsValue → Bool
  | .undefined => false
  | .null => false
  | .bool b => b
  | .num n => n != 0
  | .str s => s != ""
  | .arr _ => true
  | .obj _ => true

/-- Total property read `v.k` for a value that is neither `undefined` nor
`null` (on those two it is only reached behind a guard): object fields by
lookup, the `length` of arrays and strings, `undefined` otherwise. -/
def jsGet : JsValue → String → JsValue
  | .obj fs, k => (List.lookup k fs).getD .undefined
  | .arr xs, k => if k = "length" then .num xs.length else .undefined
  | .str s, k => if k = "length" then .num s.length else .undefined
  | _, _ => .undefined

/-- Total index read `v[i]`: array elements in bounds, `undefined` out of
bounds (JS arrays do not throw on out-of-bounds reads). -/
def jsIndex : JsValue → Nat → JsValue
  | .arr xs, i => xs.getD i .undefined
  | .obj fs, i => (List.lookup (toString i) fs).getD .undefined
  | _, _ => .undefined

/-- Property read `v.k` with the JS throwing behaviour: a `TypeError` when
the receiver is `undefined` or `null`. -/
def getMember (v : JsValue) (k : String) : Except JsError JsValue :=
  match v with
  | .undefined => .error (.typeErr ("Cannot read properties of undefined (reading " ++ k ++ ")"))
  | .null => .error (.typeErr ("Cannot read properties of null (reading " ++ k ++ ")"))
  | v => .ok (jsGet v k)

/-- Index read `v[i]` with the JS throwing behaviour: a `TypeError` when the
receiver is `undefined` or `null`. -/
def getIndex (v : JsValue) (i : Nat) : Except JsError JsValue :=
  match v with
  | .undefined => .error (.typeErr ("Cannot read properties of undefined (reading " ++ toString i ++ ")"))
  | .null => .error (.typeErr ("Cannot read properties of null (reading " ++ toString i ++ ")"))
  | v => .ok (jsIndex v i)

/-- Assignment `o.k = v` on an object: overwrite an existing field in place,
append a fresh one at the end; a no-op on non-objects (the code only ever
assigns onto objects). -/
def setKey : List (String × JsValue) → String → JsValue → List (String × JsValue)
  | [], k, v => [(k, v)]
  | (k0, v0) :: rest, k, v => if k0 = k then (k, v) :: rest else (k0, v0) :: setKey rest k v

/-- Assignment `o.k = v` lifted to `JsValue`. -/
def jsSet : JsValue → String → JsValue → JsValue
  | .obj fs, k, v => .obj (setKey fs k v)
  | x, _, _ => x

/-- Embedding of `exports.parse` from `lib/profile.js`.  `jp` abstracts the
runtime `JSON.parse`.  The string branch re-parses; then
`profile.id = json.results[0].user_id` and the two sibling assignments are
performed with the JS property-access semantics, building the object
`{id, username, emails}` field by field. -/
def parse (jp : String → Except JsError JsValue) (json : JsValue) : Except JsError JsValue := do
  let json ← match json with
    | .str s => jp s
    | j => pure j
  let results ← getMember json "results"
  let r0 ← getIndex results 0
  let uid ← getMember r0 "user_id"
  let uname ← getMember r0 "login_name"
  let email ← getMember r0 "primary_email"
  pure (.obj [("id", uid), ("username", uname), ("emails", email)])

/-- The options object handed to the `Strategy` constructor; `none` models an
absent (`undefined`) property.  Only the options the constructor itself
reads are kept; the remaining ones (`consumerKey`, `verify`, ...) are
consumed unchanged by the external OAuth1 base class. -/
structure Options where
  requestTokenURL : Option String
  accessTokenURL : Option String
  userAuthorizationURL : Option String
  sessionKey : Option String
  scope : Option (List String)
  userProfileURL : Option String
  skipExtendedUserProfile : Option Bool
deriving Repr, DecidableEq

/-- The JS defaulting idiom `x || d` on an optional string: both `undefined`
and the empty string are falsy and fall through to the default. -/
def jsOrStr : Option String → String → String
  | some s, d => if s = "" then d else s
  | none, d => d

/-- The scope-joining loop of the constructor: `scopeString` starts as
`?scope=`, each element is appended, and `%20` is appended after every
element except the last. -/
def scopeJoin : List String → String
  | [] => ""
  | [s] => s
  | s :: rest => s ++ "%20" ++ scopeJoin rest

/-- State of a constructed strategy: the fields the constructor stores on
`this` (via the OAuth1 base class for the URLs, directly for the rest). -/
structure Strategy where
  name : String
  requestTokenURL : String
  accessTokenURL : String
  userAuthorizationURL : String
  sessionKey : String
  userProfileURL : String
  skipExtendedUserProfile : Bool
deriving Repr, DecidableEq

/-- First phase of the constructor: the four `options.x = options.x || d`
default assignments, mutating the options object. -/
def setDefaults (o : Options) : Options :=
  Options.mk
    (some (jsOrStr o.requestTokenURL "https://openapi.etsy.com/v2/oauth/request_token"))
    (some (jsOrStr o.accessTokenURL "https://openapi.etsy.com/v2/oauth/access_token"))
    (some (jsOrStr o.userAuthorizationURL "https://www.etsy.com/oauth/signin"))
    (some (jsOrStr o.sessionKey "oauth:etsy"))
    o.scope o.userProfileURL o.skipExtendedUserProfile

/-- Second phase of the constructor: when `options.scope` is present and
non-empty, append `?scope=` plus the joined scopes onto
`options.requestTokenURL`, again mutating the options object. -/
def appendScope (o : Options) : Options :=
  match o.scope with
  | some sc =>
      if 0 < sc.length then
        Options.mk (some (o.requestTokenURL.getD "" ++ ("?scope=" ++ scopeJoin sc)))
          o.accessTokenURL o.userAuthorizationURL o.sessionKey o.scope
          o.userProfileURL o.skipExtendedUserProfile
      else o
  | none => o

/-- Embedding of the `Strategy` constructor from `lib/strategy.js`.  It
returns both the options object after its in-place mutations (the caller
keeps holding it) and the constructed strategy state. -/
def Strategy.init (options : Options) : Options × Strategy :=
  let options := appendScope (setDefaults options)
  (options,
    Strategy.mk "etsy"
      (options.requestTokenURL.getD "")
      (options.accessTokenURL.getD "")
      (options.userAuthorizationURL.getD "")
      (options.sessionKey.getD "")
      (jsOrStr options.userProfileURL "https://openapi.etsy.com/v2/users/__SELF__")
      (options.skipExtendedUserProfile.getD false))

/-- An incoming request as `authenticate` sees it: only `req.query` is
read. -/
structure Request where
  query : JsValue

/-- Observable behaviour of `Strategy.prototype.authenticate`: either
`this.fail()` is called and the method returns, or control is handed to
`OAuthStrategy.prototype.authenticate`, the only path that can issue
network traffic. -/
inductive AuthAction where
  | fail
  | delegate
deriving Repr, DecidableEq

/-- Embedding of `Strategy.prototype.authenticate`: on
`req.query && req.query.denied` the attempt fails at once, otherwise it
delegates to the OAuth1 base class. -/
def authenticate (req : Request) : AuthAction :=
  if jsTruthy req.query && jsTruthy (jsGet req.query "denied") then .fail else .delegate

mutual

/-- JS string coercion `"" + v`, as used to build the profile-fetch URL. -/
def jsToStr : JsValue → String
  | .undefined => "undefined"
  | .null => "null"
  | .bool true => "true"
  | .bool false => "false"
  | .num n => toString n
  | .str s => s
  | .arr xs => jsToStrElems xs
  | .obj _ => "[object Object]"

/-- Array-to-string coercion: elements joined with commas. -/
def jsToStrElems : List JsValue → String
  | [] => ""
  | [x] => jsToStr x
  | x :: xs => jsToStr x ++ "," ++ jsToStrElems xs

end

/-- The argument with which the external OAuth1 client invokes the callback
given to `this._oauth.get`: a transport error (whose `data` property, when
present, is the provider response body) or a successful response body. -/
inductive FetchResult where
  | transportErr (data : Option String)
  | body (s : String)
deriving Repr, DecidableEq

/-- The single completion of a `userProfile` call: which error constructor
`done` receives, or an exception escaping the callback, or the profile on
success. -/
inductive Outcome where
  | apiError (message code : JsValue)
  | internalOAuthError (msg : String)
  | failure (msg : String)
  | thrown (e : JsError)
  | success (profile : JsValue)
deriving Repr

/-- `json.errors[0]` followed by `e.message` and `e.code`, each with the JS
throwing behaviour, in source evaluation order. -/
def firstError (errs : JsValue) : Except JsError (JsValue × JsValue) :=
  match getIndex errs 0 with
  | .error ex => .error ex
  | .ok e =>
    match getMember e "message" with
    | .error ex => .error ex
    | .ok m =>
      match getMember e "code" with
      | .error ex => .error ex
      | .ok c => .ok (m, c)

/-- The callback `userProfile` passes to `this._oauth.get`, embedded over an
abstract `JSON.parse`.  On transport error: try to parse `err.data` when
truthy (a parse failure is swallowed and leaves `json` undefined); if the
result is truthy with a truthy `errors` of truthy `length`, complete with
an `APIError` from the first error, else with the generic
`InternalOAuthError`.  On success: parse the body (failing with the
dedicated parse error), run the profile parser — an exception it throws
escapes the callback — then attach `provider`, `_raw` and `_json`. -/
def fetchCallback (jp : String → Except JsError JsValue) : FetchResult → Outcome
  | .transportErr data =>
    let json : JsValue :=
      match data with
      | some d =>
          if d = "" then .undefined
          else match jp d with
            | .ok j => j
            | .error _ => .undefined
      | none => .undefined
    if jsTruthy json && jsTruthy (jsGet json "errors")
        && jsTruthy (jsGet (jsGet json "errors") "length") then
      match firstError (jsGet json "errors") with
      | .ok (m, c) => .apiError m c
      | .error ex => .thrown ex
    else .internalOAuthError "Failed to fetch user profile"
  | .body b =>
    match jp b with
    | .error _ => .failure "Failed to parse user profile"
    | .ok json =>
      match parse jp json with
      | .error ex => .thrown ex
      | .ok profile =>
        .success (jsSet (jsSet (jsSet profile "provider" (.str "etsy")) "_raw" (.str b)) "_json" json)

/-- Embedding of `Strategy.prototype.userProfile`.  The first component is
the network request the call issues: `some url` for the authenticated GET
of the extended-profile path, `none` when `skipExtendedUserProfile`
short-circuits it.  The second component is the outcome delivered to
`done` (for the GET path, as a function of the transport result the
abstract client supplies). -/
def Strategy.userProfile (s : Strategy) (jp : String → Except JsError JsValue)
    (params : JsValue) (fetch : FetchResult) : Option String × Outcome :=
  if !s.skipExtendedUserProfile then
    (some (s.userProfileURL ++ "?user_id=" ++ jsToStr (jsGet params "user_id")),
     fetchCallback jp fetch)
  else
    (none,
     .success (.obj [("provider", .str "etsy"),
       ("id", jsGet params "user_id"),
       ("username", jsGet params "screen_name")]))

/-! ### Auxiliary definitions for the statements and witnesses -/

/-- Tail shape of the scope join: separator before every element. -/
def scopeTail : List String → String
  | [] => ""
  | a :: as => "%20" ++ a ++ scopeTail as

/-- A fixed options value configuring the scope list `["a", "b"]` and
nothing else. -/
def optsScopeAB : Options :=
  Options.mk none none none none (some ["a", "b"]) none none

/-- A strategy constructed from an empty options object (all defaults). -/
def defaultStrategy : Strategy :=
  (Strategy.init (Options.mk none none none none none none none)).2

/-- A strategy constructed with `skipExtendedUserProfile: true`. -/
def skipStrategy : Strategy :=
  (Strategy.init (Options.mk none none none none none none (some true))).2

/-- The fields of the sample user record of the provider response quoted in
`lib/profile.js`. -/
def sampleUser : List (String × JsValue) :=
  [("user_id", .num 42), ("login_name", .str "bob"), ("primary_email", .str "bob@x.com")]

/-- A sample provider response object `{results: [sampleUser]}`. -/
def sampleJson : List (String × JsValue) :=
  [("count", .num 1), ("results", .arr [.obj sampleUser]), ("type", .str "User")]

/-- The JSON text of `sampleJson` (braces written via escapes). -/
def sampleBody : String :=
  "\x7b\"count\":1,\"results\":[\x7b\"user_id\":42,\"login_name\":\"bob\",\"primary_email\":\"bob@x.com\"\x7d],\"type\":\"User\"\x7d"

/-- A `JSON.parse` model that parses `sampleBody` to `sampleJson` and
rejects everything else. -/
def jpSample : String → Except JsError JsValue :=
  fun s => if s = sampleBody then .ok (.obj sampleJson) else .error (.parseErr "Unexpected token")

/-- A `JSON.parse` model that rejects every input. -/
def jpBad : String → Except JsError JsValue :=
  fun _ => .error (.parseErr "Unexpected token")

/-- The provider error body `{"errors":[{"message":"m","code":"c"}]}`
(braces written via escapes). -/
def errorBody : String :=
  "\x7b\"errors\":[\x7b\"message\":\"m\",\"code\":\"c\"\x7d]\x7d"

/-- A `JSON.parse` model that parses `errorBody` to the corresponding
object and rejects everything else. -/
def jpError : String → Except JsError JsValue :=
  fun s =>
    if s = errorBody then
      .ok (.obj [("errors", .arr [.obj [("message", .str "m"), ("code", .str "c")]])])
    else .error (.parseErr "Unexpected token")

/-! ### Helper lemmas -/

theorem intercalate_go_eq (as : List String) : ∀ acc : String,
    String.intercalate.go acc "%20" as = acc ++ scopeTail as := by
  induction as with
  | nil => intro acc; simp [String.intercalate.go, scopeTail]
  | cons a as ih =>
      intro acc
      simp [String.intercalate.go, scopeTail, ih, String.append_assoc]

theorem scopeJoin_cons (a : String) (as : List String) :
    scopeJoin (a :: as) = a ++ scopeTail as := by
  induction as generalizing a with
  | nil => simp [scopeJoin, scopeTail]
  | cons b bs ih => simp [scopeJoin, scopeTail, ih, String.append_assoc]

theorem scopeJoin_eq_intercalate (sc : List String) :
    scopeJoin sc = String.intercalate "%20" sc := by
  cases sc with
  | nil => rfl
  | cons a as => simp [String.intercalate, intercalate_go_eq, scopeJoin_cons]

/-- The options object after the constructor ran, when a non-empty scope is
configured. -/
theorem init_options_eq (o : Options) (sc : List String)
    (hsc : o.scope = some sc) (hne : sc ≠ []) :
    (Strategy.init o).1 =
      Options.mk
        (some (jsOrStr o.requestTokenURL "https://openapi.etsy.com/v2/oauth/request_token"
          ++ ("?scope=" ++ scopeJoin sc)))
        (some (jsOrStr o.accessTokenURL "https://openapi.etsy.com/v2/oauth/access_token"))
        (some (jsOrStr o.userAuthorizationURL "https://www.etsy.com/oauth/signin"))
        (some (jsOrStr o.sessionKey "oauth:etsy"))
        (some sc) o.userProfileURL o.skipExtendedUserProfile := by
  have hp : 0 < sc.length := List.length_pos.mpr hne
  simp [Strategy.init, setDefaults, appendScope, hsc, hp]

/-- The request-token URL the constructed strategy carries, when a non-empty
scope is configured. -/
theorem init_requestTokenURL (o : Options) (sc : List String)
    (hsc : o.scope = some sc) (hne : sc ≠ []) :
    (Strategy.init o).2.requestTokenURL =
      jsOrStr o.requestTokenURL "https://openapi.etsy.com/v2/oauth/request_token"
        ++ ("?scope=" ++ scopeJoin sc) := by
  have hp : 0 < sc.length := List.length_pos.mpr hne
  simp [Strategy.init, setDefaults, appendScope, hsc, hp]

theorem jsOrStr_some_ne (s d : String) (h : s ≠ "") : jsOrStr (some s) d = s := by
  simp [jsOrStr, h]

theorem append_scope_ne_empty (base j : String) :
    base ++ ("?scope=" ++ j) ≠ "" := by
  intro h
  have hlen := congrArg String.length h
  have h7 : ("?scope=" : String).length = 7 := rfl
  simp [String.length_append, h7] at hlen

/-- Evaluation of the parser body on an object whose `results` is a
non-empty array headed by an object. -/
theorem parse_obj_eq (jp : String → Except JsError JsValue)
    (fs e0fs : List (String × JsValue)) (rest : List JsValue)
    (hres : List.lookup "results" fs = some (.arr (.obj e0fs :: rest))) :
    parse jp (.obj fs) =
      .ok (.obj [("id", jsGet (.obj e0fs) "user_id"),
        ("username", jsGet (.obj e0fs) "login_name"),
        ("emails", jsGet (.obj e0fs) "primary_email")]) := by
  simp [parse, getMember, getIndex, jsIndex, jsGet, hres, Bind.bind, Except.bind,
    Functor.map, Except.map, Pure.pure, Except.pure]

/-! ### Claim theorems -/

/-- C1: for every input that is either a well-formed JSON string (one the
runtime parser accepts) or an already-parsed object of shape
`{results: [{user_id, login_name, primary_email, ...}]}` with at least one
element in `results`, the profile parser returns a record whose `id`,
`username` and `emails` fields equal `results[0].user_id`,
`results[0].login_name` and `results[0].primary_email` respectively. -/
theorem c1_parse_maps_first_result (jp : String → Except JsError JsValue)
    (input : JsValue) (fs e0fs : List (String × JsValue)) (rest : List JsValue)
    (hin : input = .obj fs ∨ ∃ s, input = .str s ∧ jp s = .ok (.obj fs))
    (hres : List.lookup "results" fs = some (.arr (.obj e0fs :: rest))) :
    parse jp input =
      .ok (.obj [("id", jsGet (.obj e0fs) "user_id"),
        ("username", jsGet (.obj e0fs) "login_name"),
        ("emails", jsGet (.obj e0fs) "primary_email")]) := by
  rcases hin with h | ⟨s, hs, hjp⟩
  · rw [h]
    exact parse_obj_eq jp fs e0fs rest hres
  · rw [hs]
    have hstep : parse jp (.str s) = parse jp (.obj fs) := by
      simp [parse, hjp, Bind.bind, Except.bind, Pure.pure, Except.pure]
    rw [hstep]
    exact parse_obj_eq jp fs e0fs rest hres

/-- C1 witness: the sample provider body, fed in as a JSON string and as an
already-parsed object, both map to `{id: 42, username: "bob",
emails: "bob@x.com"}`. -/
theorem c1_parse_maps_first_result_witness :
    List.lookup "results" sampleJson = some (.arr [.obj sampleUser]) ∧
    parse jpSample (.str sampleBody) =
      .ok (.obj [("id", .num 42), ("username", .str "bob"), ("emails", .str "bob@x.com")]) ∧
    parse jpSample (.obj sampleJson) =
      .ok (.obj [("id", .num 42), ("username", .str "bob"), ("emails", .str "bob@x.com")]) :=
  ⟨rfl,
   (c1_parse_maps_first_result jpSample (.str sampleBody) sampleJson sampleUser []
     (Or.inr ⟨sampleBody, rfl, rfl⟩) rfl).trans rfl,
   (c1_parse_maps_first_result jpSample (.obj sampleJson) sampleJson sampleUser []
     (Or.inl rfl) rfl).trans rfl⟩

/-- C2: for every request whose query object holds a truthy `denied` value,
`authenticate` fails immediately (`AuthAction.fail`, the embedding of
`this.fail()`), and in particular does not delegate to the generic OAuth1
authenticate routine (`AuthAction.delegate`), the only path that issues
network traffic. -/
theorem c2_denied_fails_immediately (req : Request)
    (hq : jsTruthy req.query = true)
    (hd : jsTruthy (jsGet req.query "denied") = true) :
    authenticate req = .fail := by
  simp [authenticate, hq, hd]

/-- C2 witness: a request with query `{denied: "xxx"}` fails immediately. -/
theorem c2_denied_fails_immediately_witness :
    jsTruthy (JsValue.obj [("denied", .str "xxx")]) = true ∧
    jsTruthy (jsGet (.obj [("denied", .str "xxx")]) "denied") = true ∧
    authenticate (Request.mk (.obj [("denied", .str "xxx")])) = .fail :=
  ⟨rfl, rfl, c2_denied_fails_immediately (Request.mk (.obj [("denied", .str "xxx")])) rfl rfl⟩

/-- C7: malformed JSON never yields a partial profile: the string branch of
the profile parser propagates the JSON parse failure, and the extended
fetch path completes with the `Failed to parse user profile` error without
ever invoking the parser. -/
theorem c7_malformed_json_fails (jp : String → Except JsError JsValue)
    (s b : String) (e e2 : JsError) (strat : Strategy) (params : JsValue)
    (hskip : strat.skipExtendedUserProfile = false)
    (hs : jp s = .error e) (hb : jp b = .error e2) :
    parse jp (.str s) = .error e ∧
    (strat.userProfile jp params (.body b)).2 = .failure "Failed to parse user profile" := by
  constructor
  · simp [parse, hs, Bind.bind, Except.bind]
  · simp [Strategy.userProfile, hskip, fetchCallback, hb]

/-- C7 witness: with a parser that rejects everything, the string branch of
`parse` propagates the parse error and the extended fetch path returns the
dedicated parse failure. -/
theorem c7_malformed_json_fails_witness :
    defaultStrategy.skipExtendedUserProfile = false ∧
    jpBad "oops" = .error (.parseErr "Unexpected token") ∧
    parse jpBad (.str "oops") = .error (.parseErr "Unexpected token") ∧
    (defaultStrategy.userProfile jpBad .null (.body "oops")).2 =
      .failure "Failed to parse user profile" :=
  ⟨rfl, rfl,
   (c7_malformed_json_fails jpBad "oops" "oops" (.parseErr "Unexpected token")
     (.parseErr "Unexpected token") defaultStrategy .null rfl rfl rfl).1,
   (c7_malformed_json_fails jpBad "oops" "oops" (.parseErr "Unexpected token")
     (.parseErr "Unexpected token") defaultStrategy .null rfl rfl rfl).2⟩

/-- C8: an empty `results` array makes the profile parser fault with the
untyped runtime error of the underlying property access (`TypeError` from
reading `user_id` off `results[0] === undefined`), rather than return a
profile with undefined fields or a typed error. -/
theorem c8_empty_results_faults (jp : String → Except JsError JsValue)
    (fs : List (String × JsValue))
    (hres : List.lookup "results" fs = some (.arr [])) :
    parse jp (.obj fs) =
      .error (.typeErr "Cannot read properties of undefined (reading user_id)") := by
  simp [parse, getMember, getIndex, jsIndex, jsGet, hres, Bind.bind, Except.bind,
    Pure.pure, Except.pure]

/-- C3: for every transport error during the extended profile fetch whose
error body parses as JSON containing a non-empty `errors` array (headed by
an object), `userProfile` completes with an `APIError` built from the
first error's `message` and `code` values. -/
theorem c3_api_error_from_error_body (strat : Strategy)
    (jp : String → Except JsError JsValue) (params : JsValue) (d : String)
    (fs e0fs : List (String × JsValue)) (rest : List JsValue)
    (hskip : strat.skipExtendedUserProfile = false)
    (hd : d ≠ "")
    (hjp : jp d = .ok (.obj fs))
    (herr : List.lookup "errors" fs = some (.arr (.obj e0fs :: rest))) :
    (strat.userProfile jp params (.transportErr (some d))).2 =
      .apiError (jsGet (.obj e0fs) "message") (jsGet (.obj e0fs) "code") := by
  simp [Strategy.userProfile, hskip, fetchCallback, hd, hjp, jsTruthy, jsGet, herr,
    firstError, getIndex, jsIndex, getMember]
  omega

/-- C3 witness: the error body `{"errors":[{"message":"m","code":"c"}]}`
yields an `APIError` with message `m` and code `c`. -/
theorem c3_api_error_from_error_body_witness :
    defaultStrategy.skipExtendedUserProfile = false ∧
    errorBody ≠ "" ∧
    jpError errorBody =
      .ok (.obj [("errors", .arr [.obj [("message", .str "m"), ("code", .str "c")]])]) ∧
    (defaultStrategy.userProfile jpError .null (.transportErr (some errorBody))).2 =
      .apiError (.str "m") (.str "c") :=
  ⟨rfl, by decide, rfl,
   (c3_api_error_from_error_body defaultStrategy jpError .null errorBody
     [("errors", .arr [.obj [("message", .str "m"), ("code", .str "c")]])]
     [("message", .str "m"), ("code", .str "c")] []
     rfl (by decide) rfl rfl).trans rfl⟩

/-- C5: with extended-profile fetching disabled, `userProfile` completes
with a profile whose `id` equals `params.user_id` and whose `username`
equals `params.screen_name`, and no network call is made. -/
theorem c5_skip_profile_from_params (strat : Strategy)
    (jp : String → Except JsError JsValue) (params : JsValue) (fetch : FetchResult)
    (hskip : strat.skipExtendedUserProfile = true) :
    (strat.userProfile jp params fetch).1 = none ∧
    ∃ p, (strat.userProfile jp params fetch).2 = .success p ∧
      jsGet p "id" = jsGet params "user_id" ∧
      jsGet p "username" = jsGet params "screen_name" := by
  refine ⟨by simp [Strategy.userProfile, hskip],
    .obj [("provider", .str "etsy"), ("id", jsGet params "user_id"),
      ("username", jsGet params "screen_name")],
    by simp [Strategy.userProfile, hskip], rfl, rfl⟩

/-- C5 witness: with `skipExtendedUserProfile: true` and params
`{user_id: 42, screen_name: "bob"}`, the profile carries id `42` and
username `bob` and no request URL is produced. -/
theorem c5_skip_profile_from_params_witness :
    skipStrategy.skipExtendedUserProfile = true ∧
    (skipStrategy.userProfile jpSample
      (.obj [("user_id", .num 42), ("screen_name", .str "bob")]) (.body "x")).1 = none ∧
    ∃ p, (skipStrategy.userProfile jpSample
        (.obj [("user_id", .num 42), ("screen_name", .str "bob")]) (.body "x")).2 =
        .success p ∧
      jsGet p "id" = jsGet (.obj [("user_id", .num 42), ("screen_name", .str "bob")]) "user_id" ∧
      jsGet p "username" =
        jsGet (.obj [("user_id", .num 42), ("screen_name", .str "bob")]) "screen_name" :=
  ⟨rfl,
   (c5_skip_profile_from_params skipStrategy jpSample
     (.obj [("user_id", .num 42), ("screen_name", .str "bob")]) (.body "x") rfl).1,
   (c5_skip_profile_from_params skipStrategy jpSample
     (.obj [("user_id", .num 42), ("screen_name", .str "bob")]) (.body "x") rfl).2⟩

/-- C10: with extended-profile fetching disabled, the synthesized profile
contains exactly the fields `provider`, `id` and `username`, in that
order: in particular it has no `emails`, `_raw` or `_json` field. -/
theorem c10_skip_profile_exact_fields (strat : Strategy)
    (jp : String → Except JsError JsValue) (params : JsValue) (fetch : FetchResult)
    (hskip : strat.skipExtendedUserProfile = true) :
    ∃ fields, (strat.userProfile jp params fetch).2 = .success (.obj fields) ∧
      fields.map Prod.fst = ["provider", "id", "username"] ∧
      List.lookup "emails" fields = none ∧
      List.lookup "_raw" fields = none ∧
      List.lookup "_json" fields = none := by
  refine ⟨[("provider", .str "etsy"), ("id", jsGet params "user_id"),
    ("username", jsGet params "screen_name")],
    by simp [Strategy.userProfile, hskip], rfl, rfl, rfl, rfl⟩

/-- C10 witness: the skip-path profile for params
`{user_id: 42, screen_name: "bob"}` has exactly the keys `provider`, `id`,
`username`. -/
theorem c10_skip_profile_exact_fields_witness :
    skipStrategy.skipExtendedUserProfile = true ∧
    ∃ fields, (skipStrategy.userProfile jpSample
        (.obj [("user_id", .num 42), ("screen_name", .str "bob")]) (.body "x")).2 =
        .success (.obj fields) ∧
      fields.map Prod.fst = ["provider", "id", "username"] ∧
      List.lookup "emails" fields = none ∧
      List.lookup "_raw" fields = none ∧
      List.lookup "_json" fields = none :=
  ⟨rfl,
   c10_skip_profile_exact_fields skipStrategy jpSample
     (.obj [("user_id", .num 42), ("screen_name", .str "bob")]) (.body "x") rfl⟩

/-- C6 (amended): for every successful extended profile fetch whose body
parses as valid JSON of the expected shape, the profile handed to the
completion callback carries `provider` equal to `"etsy"`, the raw response
body in a field named `_raw`, and the parsed JSON in a field named
`_json` (not `raw` and `json`), alongside the `id`/`username`/`emails`
from the parser. -/
theorem c6_success_profile_shape (strat : Strategy)
    (jp : String → Except JsError JsValue) (params : JsValue) (b : String)
    (fs e0fs : List (String × JsValue)) (rest : List JsValue)
    (hskip : strat.skipExtendedUserProfile = false)
    (hjp : jp b = .ok (.obj fs))
    (hres : List.lookup "results" fs = some (.arr (.obj e0fs :: rest))) :
    (strat.userProfile jp params (.body b)).2 =
      .success (.obj [("id", jsGet (.obj e0fs) "user_id"),
        ("username", jsGet (.obj e0fs) "login_name"),
        ("emails", jsGet (.obj e0fs) "primary_email"),
        ("provider", .str "etsy"), ("_raw", .str b), ("_json", .obj fs)]) := by
  have hp := parse_obj_eq jp fs e0fs rest hres
  simp [Strategy.userProfile, hskip, fetchCallback, hjp, hp, jsSet, setKey]

/-- C6 witness: the sample success body yields the profile with `provider`,
`_raw` and `_json` attached after the parsed fields. -/
theorem c6_success_profile_shape_witness :
    defaultStrategy.skipExtendedUserProfile = false ∧
    jpSample sampleBody = .ok (.obj sampleJson) ∧
    List.lookup "results" sampleJson = some (.arr [.obj sampleUser]) ∧
    (defaultStrategy.userProfile jpSample .null (.body sampleBody)).2 =
      .success (.obj [("id", .num 42), ("username", .str "bob"),
        ("emails", .str "bob@x.com"), ("provider", .str "etsy"),
        ("_raw", .str sampleBody), ("_json", .obj sampleJson)]) :=
  ⟨rfl, rfl, rfl,
   (c6_success_profile_shape defaultStrategy jpSample .null sampleBody
     sampleJson sampleUser [] rfl rfl rfl).trans rfl⟩

/-- C6 counterexample: on a concrete successful fetch the claim as stated
fails: the profile delivered to the callback has no field named `raw` and
no field named `json` (both read as `undefined`, and `raw` does not hold
the response body); the body and the parsed JSON sit in `_raw` and
`_json`. -/
theorem c6_field_names_counterexample :
    (defaultStrategy.userProfile jpSample .null (.body sampleBody)).2 =
      .success (.obj [("id", .num 42), ("username", .str "bob"),
        ("emails", .str "bob@x.com"), ("provider", .str "etsy"),
        ("_raw", .str sampleBody), ("_json", .obj sampleJson)]) ∧
    jsGet (.obj [("id", .num 42), ("username", .str "bob"),
        ("emails", .str "bob@x.com"), ("provider", .str "etsy"),
        ("_raw", .str sampleBody), ("_json", .obj sampleJson)]) "raw" = .undefined ∧
    jsGet (.obj [("id", .num 42), ("username", .str "bob"),
        ("emails", .str "bob@x.com"), ("provider", .str "etsy"),
        ("_raw", .str sampleBody), ("_json", .obj sampleJson)]) "json" = .undefined ∧
    jsGet (.obj [("id", .num 42), ("username", .str "bob"),
        ("emails", .str "bob@x.com"), ("provider", .str "etsy"),
        ("_raw", .str sampleBody), ("_json", .obj sampleJson)]) "raw" ≠ .str sampleBody := by
  refine ⟨rfl, rfl, rfl, ?_⟩
  intro h
  exact JsValue.noConfusion h

/-- C8 witness: `{results: []}` faults with the `TypeError`. -/
theorem c8_empty_results_faults_witness :
    List.lookup "results" [(("results" : String), JsValue.arr [])] = some (JsValue.arr []) ∧
    parse jpSample (.obj [("results", .arr [])]) =
      .error (.typeErr "Cannot read properties of undefined (reading user_id)") :=
  ⟨rfl, c8_empty_results_faults jpSample [("results", .arr [])] rfl⟩

/-- C4: for every configured non-empty scope list, the constructor appends
to the request-token URL the query string `?scope=` followed by the scope
strings joined by the literal three-character separator `%20`. -/
theorem c4_scope_query_appended (o : Options) (sc : List String)
    (hsc : o.scope = some sc) (hne : sc ≠ []) :
    (Strategy.init o).2.requestTokenURL =
      jsOrStr o.requestTokenURL "https://openapi.etsy.com/v2/oauth/request_token"
        ++ "?scope=" ++ String.intercalate "%20" sc := by
  rw [String.append_assoc, ← scopeJoin_eq_intercalate]
  exact init_requestTokenURL o sc hsc hne

/-- C4 witness: configuring scope `["a", "b"]` produces a request-token URL
ending in `?scope=a%20b`. -/
theorem c4_scope_query_appended_witness :
    optsScopeAB.scope = some ["a", "b"] ∧ (["a", "b"] : List String) ≠ [] ∧
    (Strategy.init optsScopeAB).2.requestTokenURL =
      jsOrStr optsScopeAB.requestTokenURL "https://openapi.etsy.com/v2/oauth/request_token"
        ++ "?scope=" ++ String.intercalate "%20" ["a", "b"] ∧
    (Strategy.init optsScopeAB).2.requestTokenURL =
      "https://openapi.etsy.com/v2/oauth/request_token" ++ "?scope=a%20b" :=
  ⟨rfl, by decide,
   c4_scope_query_appended optsScopeAB ["a", "b"] rfl (by decide),
   by decide⟩

/-- C9: the scope-appending step is not idempotent: running the constructor
a second time on the options object mutated by the first run yields a
request-token URL with the `?scope=...` query string appended twice. -/
theorem c9_double_init_double_appends (o : Options) (sc : List String)
    (hsc : o.scope = some sc) (hne : sc ≠ []) :
    (Strategy.init (Strategy.init o).1).2.requestTokenURL =
      jsOrStr o.requestTokenURL "https://openapi.etsy.com/v2/oauth/request_token"
        ++ ("?scope=" ++ String.intercalate "%20" sc)
        ++ ("?scope=" ++ String.intercalate "%20" sc) := by
  have h1 := init_options_eq o sc hsc hne
  have hS := append_scope_ne_empty
    (jsOrStr o.requestTokenURL "https://openapi.etsy.com/v2/oauth/request_token")
    (scopeJoin sc)
  have hrt : (Strategy.init o).1.requestTokenURL =
      some (jsOrStr o.requestTokenURL "https://openapi.etsy.com/v2/oauth/request_token"
        ++ ("?scope=" ++ scopeJoin sc)) := by
    rw [h1]
  have hsc1 : (Strategy.init o).1.scope = some sc := by rw [h1]
  have h2 := init_requestTokenURL (Strategy.init o).1 sc hsc1 hne
  rw [h2, hrt, jsOrStr_some_ne _ _ hS, scopeJoin_eq_intercalate]

/-- C9 witness: two constructor runs on the same options object configuring
scope `["a", "b"]` yield a URL carrying `?scope=a%20b` twice. -/
theorem c9_double_init_double_appends_witness :
    optsScopeAB.scope = some ["a", "b"] ∧ (["a", "b"] : List String) ≠ [] ∧
    (Strategy.init (Strategy.init optsScopeAB).1).2.requestTokenURL =
      jsOrStr optsScopeAB.requestTokenURL "https://openapi.etsy.com/v2/oauth/request_token"
        ++ ("?scope=" ++ String.intercalate "%20" ["a", "b"])
        ++ ("?scope=" ++ String.intercalate "%20" ["a", "b"]) ∧
    (Strategy.init (Strategy.init optsScopeAB).1).2.requestTokenURL =
      "https://openapi.etsy.com/v2/oauth/request_token?scope=a%20b?scope=a%20b" :=
  ⟨rfl, by decide,
   c9_double_init_double_appends optsScopeAB ["a", "b"] rfl (by decide),
   by decide⟩

end Etsy
